import Mathlib

/-!
Verification of the oarg library (optarg.hpp): the OptArg optional-argument
wrapper, its thread-local default store, the WithDefArg scoped override and
the WithDefFlags bitwise presets.

The thread-local default (OptArgBase member tlDefVal) is modelled by passing
the store state, a single value of the slot's value type, explicitly to each
operation that reads it and returning the new state from each operation that
writes it.  One slot is considered at a time, since distinct tags have
disjoint stores.
-/

namespace Oarg

/-- Wrapper state of OptArgBase: the member mOptVal of type std optional of
the value type. -/
structure OptArg (V : Type) where
  mOptVal : Option V

/-- Default constructor and the nullopt constructor of OptArgBase: mOptVal
holds no value. -/
def OptArg.absent (V : Type) : OptArg V := ⟨none⟩

/-- Value constructors of OptArgBase, by copy or move: mOptVal holds the
given value. -/
def OptArg.holding {V : Type} (v : V) : OptArg V := ⟨some v⟩

/-- Method defaults of OptArgBase: returns the negation of
mOptVal.has_value, true exactly when value falls back to the default. -/
def OptArg.defaults {V : Type} (a : OptArg V) : Bool :=
  !a.mOptVal.isSome

/-- Method reset of OptArgBase: calls mOptVal.reset, clearing any held
value. -/
def OptArg.reset {V : Type} (_a : OptArg V) : OptArg V := ⟨none⟩

/-- Class method GetDefault of OptArg: returns tlDefVal, the thread-local
current default, here received explicitly as the store state. -/
def GetDefault {V : Type} (tlDefVal : V) : V := tlDefVal

/-- Class method SetDefault of OptArg: assigns tlDefVal = v; the new store
state is the written value. -/
def SetDefault {V : Type} (v : V) (_tlDefVal : V) : V := v

/-- Method value of OptArg, const-reference overload: returns tlDefVal when
defaults() holds, the dereferenced mOptVal otherwise. -/
def OptArg.value {V : Type} (a : OptArg V) (tlDefVal : V) : V :=
  match a.mOptVal with
  | none => tlDefVal
  | some v => v

/-- Method value of OptArg, rvalue overload: returns tlDefVal when
defaults() holds (the conditional expression copies tlDefVal into the
returned prvalue, never moving from the store), otherwise moves out of
mOptVal.  The result is paired with the store state after the call. -/
def OptArg.valueMove {V : Type} (a : OptArg V) (tlDefVal : V) : V × V :=
  match a.mOptVal with
  | none => (tlDefVal, tlDefVal)
  | some v => (v, tlDefVal)

/-- Const-reference value with the dereference of mOptVal made explicit:
the non-default branch yields mOptVal itself, so the call succeeds exactly
when a value is present. -/
def OptArg.valueChecked {V : Type} (a : OptArg V) (tlDefVal : V) : Option V :=
  if a.defaults then some tlDefVal else a.mOptVal

/-- Rvalue value with the dereference of mOptVal made explicit, the result
paired with the store state after the call. -/
def OptArg.valueMoveChecked {V : Type} (a : OptArg V) (tlDefVal : V) :
    Option (V × V) :=
  if a.defaults then some (tlDefVal, tlDefVal)
  else a.mOptVal.map (fun v => (v, tlDefVal))

/-- CustomDefTmpl and its child CustomDef: a wrapper class holding one data
member named value, with the root default fixed by the second template
argument DefVal. -/
structure CustomDef (T : Type) (DefVal : T) where
  value : T

/-- Default constructor of CustomDef: initializes the value member with
DefVal. -/
def CustomDef.init (T : Type) (DefVal : T) : CustomDef T DefVal := ⟨DefVal⟩

/-- Method value of the CustomDef specialization of OptArg, const-reference
overload: returns tlDefVal.value when defaults() holds, the value member of
the dereferenced mOptVal otherwise. -/
def OptArg.valueCustom {T : Type} {DefVal : T}
    (a : OptArg (CustomDef T DefVal)) (tlDefVal : CustomDef T DefVal) : T :=
  match a.mOptVal with
  | none => tlDefVal.value
  | some c => c.value

/-- Seeding of the static thread_local member tlDefVal for a plain int
slot: value-initialization, which for int gives zero. -/
def tlDefValFreshInt : Int := 0

/-- Member state of WithDefArgBase: mSaved, the default that was current
when the override was constructed. -/
structure WithDefArgBase (V : Type) where
  mSaved : V

/-- Plain constructor of WithDefArgBase: mSaved is initialized from
tlDefVal(), then tlDefVal() = v.  Returns the new store state together with
the constructed override object. -/
def WithDefArgBase.construct {V : Type} (v : V) (tlDefVal : V) :
    V × WithDefArgBase V :=
  (v, ⟨tlDefVal⟩)

/-- Merge constructor of WithDefArgBase: mSaved is initialized from
tlDefVal(), then mergeFn(tlDefVal(), v).  The source merge functor mutates
its first argument in place; it is modelled as returning the merged value,
which becomes the new store state. -/
def WithDefArgBase.constructWith {V : Type} (mergeFn : V → V → V) (v : V)
    (tlDefVal : V) : V × WithDefArgBase V :=
  (mergeFn tlDefVal v, ⟨tlDefVal⟩)

/-- Destructor of WithDefArgBase: tlDefVal() = std move of mSaved, a direct
write of the saved value that ignores whatever the store holds at that
moment. -/
def WithDefArgBase.destruct {V : Type} (o : WithDefArgBase V)
    (_tlDefVal : V) : V :=
  o.mSaved

/-- Replace policy, the behaviour of the plain constructor written as a
merge function: the old default is discarded in favour of the new value. -/
def replacePolicy {V : Type} (_old v : V) : V := v

/-- Strictly nested sequence of plain WithDefArg overrides with values vs
on one slot: each override is constructed in list order and destructed in
reverse order as its scope closes around the inner ones.  Returns the final
store state. -/
def runNested {V : Type} (vs : List V) (tlDefVal : V) : V :=
  match vs with
  | [] => tlDefVal
  | v :: rest =>
    let c := WithDefArgBase.construct v tlDefVal
    let inner := runNested rest c.1
    c.2.destruct inner

/-- Enumeration kBitwise with enumerators Or, AndC and XOr. -/
inductive kBitwise where
  | Or
  | AndC
  | XOr

/-- Position of each enumerator, the index the constructor of WithDefFlags
uses to subscript kHandleOp. -/
def kBitwise.toIdx : kBitwise → Nat
  | .Or => 0
  | .AndC => 1
  | .XOr => 2

/-- The three lambdas written in the initializer of kHandleOp, in source
order: dst or-assign src, dst and-assign the complement of src, and dst
xor-assign src, each modelled as returning the new dst. -/
def kHandleOpInits : List (Int → Int → Int) :=
  [fun dst src => Int.lor dst src,
   fun dst src => Int.land dst (Int.lnot src),
   fun dst src => Int.xor dst src]

/-- Member kHandleOp of WithDefFlags as declared in the source: a std array
whose size template argument is 2, so only subscripts 0 and 1 are in range;
the third element of the initializer list does not fit and subscript 2 is
out of bounds, modelled as none. -/
def kHandleOp (i : Nat) : Option (Int → Int → Int) :=
  if i < 2 then kHandleOpInits.get? i else none

/-- Operations of the OptArg wrapper, the subjects of the frame property:
construction of an absent or holding wrapper, defaults(), the two value()
overloads and reset(). -/
inductive OptArgOp (V : Type) where
  | constructAbsent
  | constructHolding (v : V)
  | queryDefaults
  | valueConst
  | valueMove
  | clear

/-- Effect of one OptArg operation on the pair of wrapper and store state,
each case taken from the corresponding source method: the constructors only
build mOptVal, defaults() and the const value() overload are const methods
that read without writing, the rvalue value() overload leaves the store as
valueMove reports it, and reset() only clears mOptVal. -/
def OptArgOp.run {V : Type} : OptArgOp V → OptArg V × V → OptArg V × V
  | .constructAbsent, s => (OptArg.absent V, s.2)
  | .constructHolding v, s => (OptArg.holding v, s.2)
  | .queryDefaults, s => s
  | .valueConst, s => s
  | .valueMove, s => (s.1, (s.1.valueMove s.2).2)
  | .clear, s => (s.1.reset, s.2)

/-- C1: for any strictly nested sequence of Replace-policy scoped overrides
on one slot, after all of them are destructed in reverse order of
construction, GetDefault returns exactly the value the store held
immediately before the first override was constructed, as if the overrides
had never existed. -/
theorem nested_overrides_restore {V : Type} (vs : List V) (st : V) :
    GetDefault (runNested vs st) = st := by
  cases vs with
  | nil => rfl
  | cons v rest => rfl

/-- C2: the claimed flag-merge behaviour fails in the code: kHandleOp is
declared as a std array of size 2, so looking up the XOr enumerator, index
2, is out of bounds, even though the initializer list does contain the
xor lambda as its third element. -/
theorem kHandleOp_xor_out_of_bounds :
    kHandleOp (kBitwise.toIdx kBitwise.XOr) = none ∧
    kHandleOpInits.get? (kBitwise.toIdx kBitwise.XOr)
      = some (fun dst src => Int.xor dst src) :=
  ⟨rfl, rfl⟩

/-- C3: constructing a scoped override saves the slot's current default in
mSaved and stores the result of merging that saved default with the new
value; the plain constructor realizes the Replace policy, so the stored
default becomes exactly the new value. -/
theorem override_construct_merges {V : Type} (mergeFn : V → V → V)
    (v st : V) :
    GetDefault (WithDefArgBase.constructWith mergeFn v st).1 = mergeFn st v ∧
    (WithDefArgBase.constructWith mergeFn v st).2.mSaved = st ∧
    WithDefArgBase.construct v st = WithDefArgBase.constructWith replacePolicy v st :=
  ⟨rfl, rfl, rfl⟩

/-- C4: destruction writes the saved pre-construction default directly back
to the store, not through the merge policy: whatever merge function was used
at construction and whatever value the store holds at destruction time, the
stored default afterwards equals the pre-construction default. -/
theorem override_destruct_restores {V : Type} (mergeFn : V → V → V)
    (v st mid : V) :
    (WithDefArgBase.constructWith mergeFn v st).2.destruct mid = st ∧
    (WithDefArgBase.construct v st).2.destruct mid = st :=
  ⟨rfl, rfl⟩

/-- C5: value() never caches the default: on a wrapper that stays absent, a
call made before SetDefault writes x returns the pre-write default, and a
call made after returns x. -/
theorem value_reads_live_default {V : Type} (a : OptArg V)
    (h : a.defaults = true) (st x : V) :
    a.value st = st ∧ a.value (SetDefault x st) = x := by
  obtain ⟨o⟩ := a
  cases o with
  | none => exact ⟨rfl, rfl⟩
  | some v => simp [OptArg.defaults] at h

/-- Witness for C5 at a concrete absent int wrapper, with pre-write default
0 and written value 5. -/
theorem value_reads_live_default_holds :
    (OptArg.absent Int).value 0 = 0 ∧
    (OptArg.absent Int).value (SetDefault 5 0) = 5 :=
  value_reads_live_default (OptArg.absent Int) rfl 0 5

/-- C6: a wrapper holding v resolves to v in both the consuming and the
non-consuming form, independent of the slot's current default and hence of
any active override on the slot. -/
theorem holding_resolves_to_held {V : Type} (v st : V) :
    (OptArg.holding v).value st = v ∧
    ((OptArg.holding v).valueMove st).1 = v :=
  ⟨rfl, rfl⟩

/-- C7: with no explicit default provider a fresh store holds the value
type's value-initialized state, which an absent wrapper resolves to, zero
in the int instance; and for a CustomDef slot with constant c a fresh store
is seeded by the CustomDef default constructor, so an absent wrapper
resolves to c. -/
theorem fresh_default_seeding :
    (∀ (V : Type) (vinit : V),
      (OptArg.absent V).value (GetDefault vinit) = vinit) ∧
    (OptArg.absent Int).value tlDefValFreshInt = 0 ∧
    (∀ (T : Type) (c : T),
      (OptArg.absent (CustomDef T c)).valueCustom (CustomDef.init T c) = c) :=
  ⟨fun _ _ => rfl, rfl, fun _ _ => rfl⟩

/-- C8: every store and wrapper operation is total: both value() overloads
dereference mOptVal only when a value is present, so their checked forms
always succeed and agree with the values returned, and GetDefault,
SetDefault and reset are unconditionally defined. -/
theorem operations_total {V : Type} (a : OptArg V) (st v : V) :
    (a.valueChecked st).isSome = true ∧
    a.valueChecked st = some (a.value st) ∧
    (a.valueMoveChecked st).isSome = true ∧
    a.valueMoveChecked st = some (a.valueMove st) ∧
    GetDefault (SetDefault v st) = v ∧
    (a.reset).defaults = true := by
  obtain ⟨o⟩ := a
  cases o <;>
    simp [OptArg.valueChecked, OptArg.value, OptArg.valueMoveChecked,
      OptArg.valueMove, OptArg.defaults, OptArg.reset, GetDefault, SetDefault]

/-- C9: defaults() is true exactly when the wrapper holds no explicit
value, and reset() forces the absent state whatever the prior state was, so
a later value() returns the slot's live current default. -/
theorem defaults_iff_absent {V : Type} (a : OptArg V) (st : V) :
    (a.defaults = true ↔ a.mOptVal = none) ∧
    a.reset = OptArg.absent V ∧
    (a.reset).defaults = true ∧
    (a.reset).value st = st := by
  obtain ⟨o⟩ := a
  cases o <;>
    simp [OptArg.defaults, OptArg.reset, OptArg.absent, OptArg.value]

/-- C10: no OptArg wrapper operation modifies the slot's stored default:
construction, defaults(), both value() overloads and reset() leave the
thread-local store unchanged; in particular the consuming value() on an
absent wrapper copies the stored default rather than moving from it. -/
theorem operations_preserve_default {V : Type} (op : OptArgOp V)
    (s : OptArg V × V) :
    (OptArgOp.run op s).2 = s.2 := by
  obtain ⟨⟨o⟩, st⟩ := s
  cases op <;> cases o <;> rfl

end Oarg
